import Mathlib

/-!
Verification of the knowledge-graph memory engine of the repository
(`src/memory-manager.ts`, called `MemoryManager`) over a shallow embedding.

Modelling conventions:

* The two backing SQLite tables (`entities`, `relations`) are lists of rows.
  The `observations` column physically holds JSON text produced by
  `JSON.stringify`; the model keeps the deserialized `List String` in the row
  and applies `serializeObservations` (a faithful model of `JSON.stringify`
  on an array of strings) wherever the stored text itself matters
  (the `LIKE` match of `searchNodes`).
* Timestamps (`new Date().toISOString()`) are modelled as natural-number clock
  readings: ISO-8601 timestamps are totally ordered by time, and each call to
  `new Date()` is one reading.  The world state carries the clock and each
  reading advances it, so successive readings are strictly increasing (the
  resolution of the real clock is assumed to separate successive calls).
* Every call to the storage collaborator (`SQLiteManager`) returns a
  `DatabaseOperationResult`-shaped value `(success, data?, error?)`; the
  collaborator catches its own exceptions and never throws.  The model
  threads a call counter and consults an environment `Env : Nat → Option
  String` telling which calls fail and with what error message (`none` =
  success).  `allOk` is the fault-free environment.
* `queryData` called with the empty conditions object `{}` (as `readGraph`
  does) builds the SQL text `SELECT * FROM <table> WHERE ` with an empty
  WHERE clause, which is malformed SQL: the underlying call always fails,
  whatever the environment does.  The model reproduces this.
* Engine methods that `throw` are embedded as functions returning
  `Except String α` together with the resulting world; methods with no
  `throw` path (`deleteEntity`) return the world only.
-/

namespace MemoryModel

/-- A row of the `entities` table: `entities(name PK, entity_type,
observations, created_at, updated_at)`.  `observations` holds the
deserialized observation list (see the module comment). -/
structure EntityRow where
  name : String
  entity_type : String
  observations : List String
  created_at : Nat
  updated_at : Nat
deriving DecidableEq

/-- A row of the `relations` table: `relations(id PK AUTOINCREMENT,
from_entity, to_entity, relation_type, created_at)`.  The auto-increment
`id` is never read by the engine and is omitted; duplicate rows are
represented as duplicate list entries. -/
structure RelationRow where
  from_entity : String
  to_entity : String
  relation_type : String
  created_at : Nat
deriving DecidableEq

/-- The world: the persistent store (two tables), the wall clock, and the
running count of storage-collaborator calls made so far. -/
structure W where
  entities : List EntityRow
  relations : List RelationRow
  clock : Nat
  calls : Nat
deriving DecidableEq

/-- Fault environment: which storage-collaborator call (by index) reports
failure, and with what error message.  `none` means the call succeeds. -/
def Env : Type := Nat → Option String

/-- The fault-free environment: every storage call succeeds. -/
def allOk : Env := fun _ => none

/-- One reading of the wall clock (`new Date().toISOString()`). -/
def tick (w : W) : Nat × W :=
  (w.clock, { w with clock := w.clock + 1 })

/-- `sqliteManager.queryData(db, 'entities', { name: n })`:
`SELECT * FROM entities WHERE name = ?`.  Returns the error (if the call
failed) and the matching rows. -/
def queryEntitiesByName (σ : Env) (n : String) (w : W) :
    (Option String × List EntityRow) × W :=
  let err := σ w.calls
  ((err, if err.isNone then w.entities.filter (fun r => r.name == n) else []),
   { w with calls := w.calls + 1 })

/-- `sqliteManager.queryData(db, tbl, {})` (used by `readGraph`): the WHERE
clause built from an empty conditions object is empty, giving the malformed
SQL `SELECT * FROM <tbl> WHERE `, so the call always reports failure. -/
def queryAllRowsEmptyConditions (w : W) : Option String × W :=
  (some "SQLITE_ERROR: incomplete input", { w with calls := w.calls + 1 })

/-- `sqliteManager.insertData(db, 'entities', [r])`.  The `name` column is
the primary key, so inserting a duplicate name is a constraint violation
reported as a failure; otherwise the row is appended. -/
def insertEntityRow (σ : Env) (r : EntityRow) (w : W) :
    Option String × W :=
  match σ w.calls with
  | some m => (some m, { w with calls := w.calls + 1 })
  | none =>
    if w.entities.any (fun e => e.name == r.name) then
      (some "UNIQUE constraint failed: entities.name",
       { w with calls := w.calls + 1 })
    else
      (none, { w with calls := w.calls + 1, entities := w.entities ++ [r] })

/-- `sqliteManager.insertData(db, 'relations', [r])`: the `id` key is
auto-assigned, so the insert succeeds whenever the underlying call does. -/
def insertRelationRow (σ : Env) (r : RelationRow) (w : W) :
    Option String × W :=
  match σ w.calls with
  | some m => (some m, { w with calls := w.calls + 1 })
  | none => (none, { w with calls := w.calls + 1, relations := w.relations ++ [r] })

/-- `sqliteManager.updateData(db, 'entities', { name: n },
{ observations, updated_at })`. -/
def updateEntityRow (σ : Env) (n : String) (obs : List String) (t : Nat)
    (w : W) : Option String × W :=
  match σ w.calls with
  | some m => (some m, { w with calls := w.calls + 1 })
  | none =>
    (none,
     { w with calls := w.calls + 1,
              entities := w.entities.map (fun r =>
                if r.name == n then
                  { r with observations := obs, updated_at := t }
                else r) })

/-- `sqliteManager.deleteData(db, 'relations', { from_entity: n })`. -/
def deleteRelationsByFrom (σ : Env) (n : String) (w : W) :
    Option String × W :=
  match σ w.calls with
  | some m => (some m, { w with calls := w.calls + 1 })
  | none =>
    (none,
     { w with calls := w.calls + 1,
              relations := w.relations.filter (fun r => !(r.from_entity == n)) })

/-- `sqliteManager.deleteData(db, 'relations', { to_entity: n })`. -/
def deleteRelationsByTo (σ : Env) (n : String) (w : W) :
    Option String × W :=
  match σ w.calls with
  | some m => (some m, { w with calls := w.calls + 1 })
  | none =>
    (none,
     { w with calls := w.calls + 1,
              relations := w.relations.filter (fun r => !(r.to_entity == n)) })

/-- `sqliteManager.deleteData(db, 'entities', { name: n })`. -/
def deleteEntityRowsByName (σ : Env) (n : String) (w : W) :
    Option String × W :=
  match σ w.calls with
  | some m => (some m, { w with calls := w.calls + 1 })
  | none =>
    (none,
     { w with calls := w.calls + 1,
              entities := w.entities.filter (fun r => !(r.name == n)) })

/-- One hexadecimal digit, lowercase, as produced by `JSON.stringify`'s
control-character escapes. -/
def hexDigit (n : Nat) : Char :=
  if n < 10 then Char.ofNat (48 + n) else Char.ofNat (87 + n)

/-- `JSON.stringify`'s escaping of a single character inside a string
literal: quote and backslash are escaped, the named control escapes are
used for 8-13, all other control characters become `\u00XX`, everything
else is copied verbatim. -/
def jsonEscapeChar (c : Char) : String :=
  if c = '"' then "\\\""
  else if c = '\\' then "\\\\"
  else if c = '\x08' then "\\b"
  else if c = '\x09' then "\\t"
  else if c = '\x0a' then "\\n"
  else if c = '\x0c' then "\\f"
  else if c = '\x0d' then "\\r"
  else if c.toNat < 32 then
    "\\u00" ++ String.mk [hexDigit (c.toNat / 16), hexDigit (c.toNat % 16)]
  else String.mk [c]

/-- `JSON.stringify` of one string. -/
def jsonEncodeString (s : String) : String :=
  "\"" ++ String.join (s.data.map jsonEscapeChar) ++ "\""

/-- `JSON.stringify(observations)`: the text stored in the `observations`
column (a JSON array of strings, no whitespace). -/
def serializeObservations (obs : List String) : String :=
  "[" ++ String.intercalate "," (obs.map jsonEncodeString) ++ "]"

/-- SQLite `LOWER`, applied by the search queries to the stored columns:
ASCII-only — basic-latin capitals are lowercased, every other character
(non-ASCII included) is kept unchanged. -/
def sqlLower (s : String) : String :=
  String.mk (s.data.map Char.toLower)

/-- JavaScript `String.prototype.toLowerCase` on one character, which the
engine applies to the *query* before interpolating it into the `LIKE`
pattern.  Unlike SQLite's `LOWER` it is Unicode-aware: this model is the
exact Unicode simple lowercase mapping for all code points below U+0100
(there, precisely `A`-`Z` and `À`-`Þ` minus `×` have lowercase mappings,
each 32 code points higher); code points at U+0100 and above are modelled
as unchanged, a restriction the search theorems respect by constraining
queries to basic latin. -/
def jsLowerChar (c : Char) : Char :=
  if c.toNat ≥ 65 ∧ c.toNat ≤ 90 then Char.ofNat (c.toNat + 32)
  else if 192 ≤ c.toNat ∧ c.toNat ≤ 222 ∧ c.toNat ≠ 215 then
    Char.ofNat (c.toNat + 32)
  else c

/-- JavaScript `query.toLowerCase()` (see `jsLowerChar`). -/
def jsLower (s : String) : String :=
  String.mk (s.data.map jsLowerChar)

/-- SQLite `LIKE` pattern matching (default, case-sensitive form; the
engine's queries compare `LOWER`ed text against a lowercased pattern, on
which the default ASCII case folding of `LIKE` is the identity).  `%`
matches any sequence, `_` any single character. -/
def likeMatch : List Char → List Char → Bool
  | [], t => t.isEmpty
  | p :: ps, t =>
    if p = '%' then t.tails.any (fun s => likeMatch ps s)
    else if p = '_' then
      match t with
      | [] => false
      | _ :: t2 => likeMatch ps t2
    else
      match t with
      | [] => false
      | c :: t2 => (c == p) && likeMatch ps t2

/-- `text LIKE pattern` (see `likeMatch`). -/
def sqlLike (text : String) (pattern : String) : Bool :=
  likeMatch pattern.data text.data

/-- The WHERE clause of `searchNodes`' entity query:
`LOWER(name) LIKE ? OR LOWER(entity_type) LIKE ? OR LOWER(observations)
LIKE ?` with the parameter three times the pattern
`'%' + query.toLowerCase() + '%'`.  Note the asymmetry of the source: the
query is lowercased by JavaScript's Unicode `toLowerCase` (`jsLower`)
while the columns get SQLite's ASCII-only `LOWER` (`sqlLower`), so a
non-ASCII capital in the query is lowered on one side only. -/
def entityMatchSql (query : String) (r : EntityRow) : Bool :=
  let pat := "%" ++ jsLower query ++ "%"
  sqlLike (sqlLower r.name) pat || sqlLike (sqlLower r.entity_type) pat ||
    sqlLike (sqlLower (serializeObservations r.observations)) pat

/-- The WHERE clause of `searchNodes`' relation query:
`LOWER(relation_type) LIKE ? OR LOWER(from_entity) LIKE ? OR
LOWER(to_entity) LIKE ?`, with the same lowercasing asymmetry as
`entityMatchSql`. -/
def relationMatchSql (query : String) (r : RelationRow) : Bool :=
  let pat := "%" ++ jsLower query ++ "%"
  sqlLike (sqlLower r.relation_type) pat ||
    sqlLike (sqlLower r.from_entity) pat ||
    sqlLike (sqlLower r.to_entity) pat

/-- `sqliteManager.executeSql` with `searchNodes`' entity SELECT (a
well-formed query; rows satisfying the WHERE clause are returned). -/
def execSearchEntities (σ : Env) (query : String) (w : W) :
    (Option String × List EntityRow) × W :=
  let err := σ w.calls
  ((err, if err.isNone then w.entities.filter (entityMatchSql query) else []),
   { w with calls := w.calls + 1 })

/-- `sqliteManager.executeSql` with `searchNodes`' relation SELECT. -/
def execSearchRelations (σ : Env) (query : String) (w : W) :
    (Option String × List RelationRow) × W :=
  let err := σ w.calls
  ((err, if err.isNone then w.relations.filter (relationMatchSql query) else []),
   { w with calls := w.calls + 1 })

/-- The `Entity` value returned to callers (`types.ts`). -/
structure Entity where
  name : String
  entityType : String
  observations : List String
  createdAt : Nat
  updatedAt : Nat
deriving DecidableEq

/-- The `Relation` value returned to callers.  The source fields `from`,
`to` are Lean keywords and are called `fromE`, `toE` here. -/
structure Relation where
  fromE : String
  toE : String
  relationType : String
  createdAt : Nat
deriving DecidableEq

/-- The `KnowledgeGraph` value (`readGraph`'s result shape, also used for
`SearchResult`). -/
structure KnowledgeGraph where
  entities : List Entity
  relations : List Relation
deriving DecidableEq

/-- Row-to-view conversion used by `readGraph`/`searchNodes`/`openNode`
(`observations: JSON.parse(row.observations)` is the stored list). -/
def rowToEntity (r : EntityRow) : Entity :=
  ⟨r.name, r.entity_type, r.observations, r.created_at, r.updated_at⟩

/-- Row-to-view conversion for relations. -/
def rowToRelation (r : RelationRow) : Relation :=
  ⟨r.from_entity, r.to_entity, r.relation_type, r.created_at⟩

/-- `MemoryManager.createEntity(name, entityType, observations)`:
read the current time, check for an existing entity with this name (a
failed check query skips the duplicate test), then insert; a failed insert
throws with the store's message appended. -/
def createEntity (σ : Env) (name entityType : String)
    (observations : List String) (w : W) : Except String Entity × W :=
  let (now, w) := tick w
  let ((qErr, rows), w) := queryEntitiesByName σ name w
  if qErr.isNone && !rows.isEmpty then
    (.error ("Entity " ++ name ++ " already exists"), w)
  else
    let (iErr, w) := insertEntityRow σ ⟨name, entityType, observations, now, now⟩ w
    match iErr with
    | some m => (.error ("Failed to create entity: " ++ m), w)
    | none => (.ok ⟨name, entityType, observations, now, now⟩, w)

/-- The element shape of `createEntities`' argument list. -/
structure EntitySpec where
  name : String
  entityType : String
  observations : List String
deriving DecidableEq

/-- `MemoryManager.createEntities(entities)`: each element is attempted via
`createEntity`; a failure is caught (logged) and skipped, successes are
collected in order. -/
def createEntities (σ : Env) (es : List EntitySpec) (w : W) :
    List Entity × W :=
  match es with
  | [] => ([], w)
  | e :: rest =>
    let (r, w) := createEntity σ e.name e.entityType e.observations w
    let (results, w) := createEntities σ rest w
    (match r with
     | .ok ent => ent :: results
     | .error _ => results, w)

/-- `MemoryManager.createRelation(from, to, relationType)`: query both
endpoints, throw naming the missing one (a failed endpoint query is treated
as a missing endpoint), read the time, insert the relation row. -/
def createRelation (σ : Env) (fromE toE relationType : String) (w : W) :
    Except String Relation × W :=
  let ((fErr, fRows), w) := queryEntitiesByName σ fromE w
  let ((tErr, tRows), w) := queryEntitiesByName σ toE w
  if !(fErr.isNone && !fRows.isEmpty) then
    (.error ("Entity " ++ fromE ++ " does not exist"), w)
  else if !(tErr.isNone && !tRows.isEmpty) then
    (.error ("Entity " ++ toE ++ " does not exist"), w)
  else
    let (now, w) := tick w
    let (iErr, w) := insertRelationRow σ ⟨fromE, toE, relationType, now⟩ w
    match iErr with
    | some m => (.error ("Failed to create relation: " ++ m), w)
    | none => (.ok ⟨fromE, toE, relationType, now⟩, w)

/-- `MemoryManager.addObservation(entityName, contents)`: read the entity
(throwing when the query fails or returns no row), append `contents` to its
observation list, read the time, write the new list and timestamp back.
The result of the update call is ignored. -/
def addObservation (σ : Env) (entityName : String) (contents : List String)
    (w : W) : Except String Entity × W :=
  let ((qErr, rows), w) := queryEntitiesByName σ entityName w
  match qErr, rows with
  | none, entity :: _ =>
    let updatedObservations := entity.observations ++ contents
    let (now, w) := tick w
    let (_uErr, w) := updateEntityRow σ entityName updatedObservations now w
    (.ok ⟨entity.name, entity.entity_type, updatedObservations,
          entity.created_at, now⟩, w)
  | _, _ => (.error ("Entity " ++ entityName ++ " does not exist"), w)

/-- `MemoryManager.deleteObservation(entityName, observations)`: read the
entity, keep only the stored observations not contained in `observations`,
read the time, write back.  The result of the update call is ignored. -/
def deleteObservation (σ : Env) (entityName : String)
    (observations : List String) (w : W) : Except String Entity × W :=
  let ((qErr, rows), w) := queryEntitiesByName σ entityName w
  match qErr, rows with
  | none, entity :: _ =>
    let updatedObservations :=
      entity.observations.filter (fun obs => !(observations.contains obs))
    let (now, w) := tick w
    let (_uErr, w) := updateEntityRow σ entityName updatedObservations now w
    (.ok ⟨entity.name, entity.entity_type, updatedObservations,
          entity.created_at, now⟩, w)
  | _, _ => (.error ("Entity " ++ entityName ++ " does not exist"), w)

/-- `MemoryManager.deleteEntity(entityName)`: delete relations with the
entity as source, then as target, then the entity row.  All three results
are ignored; the method has no throw path, so it is a total function on the
world. -/
def deleteEntity (σ : Env) (entityName : String) (w : W) : W :=
  let (_e1, w) := deleteRelationsByFrom σ entityName w
  let (_e2, w) := deleteRelationsByTo σ entityName w
  let (_e3, w) := deleteEntityRowsByName σ entityName w
  w

/-- `MemoryManager.readGraph()`: query both whole tables with empty
conditions (which always fails, see `queryAllRowsEmptyConditions`); a
failed read is mapped to an empty list, so the method never throws. -/
def readGraph (w : W) : KnowledgeGraph × W :=
  let (eErr, w) := queryAllRowsEmptyConditions w
  let entities : List Entity :=
    if eErr.isNone then w.entities.map rowToEntity else []
  let (rErr, w) := queryAllRowsEmptyConditions w
  let relations : List Relation :=
    if rErr.isNone then w.relations.map rowToRelation else []
  (⟨entities, relations⟩, w)

/-- `MemoryManager.searchNodes(query)`: two `executeSql` SELECTs with
`LIKE` filters (see `entityMatchSql`, `relationMatchSql`); a failed call is
mapped to an empty list. -/
def searchNodes (σ : Env) (query : String) (w : W) : KnowledgeGraph × W :=
  let ((eErr, eRows), w) := execSearchEntities σ query w
  let entities : List Entity :=
    if eErr.isNone then eRows.map rowToEntity else []
  let ((rErr, rRows), w) := execSearchRelations σ query w
  let relations : List Relation :=
    if rErr.isNone then rRows.map rowToRelation else []
  (⟨entities, relations⟩, w)

/-! Helper lemmas. -/

theorem filter_name_eq_nil {l : List EntityRow} {n : String}
    (h : ∀ r ∈ l, r.name ≠ n) : l.filter (fun r => r.name == n) = [] := by
  rw [List.filter_eq_nil_iff]
  intro a ha
  simpa using h a ha

theorem any_name_eq_false {l : List EntityRow} {n : String}
    (h : ∀ r ∈ l, r.name ≠ n) : l.any (fun r => r.name == n) = false := by
  rw [List.any_eq_false]
  intro a ha
  simpa using h a ha

/-- `createEntity` in the fault-free environment on a fresh name: the full
result. -/
theorem createEntity_fresh (w : W) (n ty : String) (obs : List String)
    (hfresh : ∀ r ∈ w.entities, r.name ≠ n) :
    createEntity allOk n ty obs w =
      (Except.ok ⟨n, ty, obs, w.clock, w.clock⟩,
       { w with clock := w.clock + 1, calls := w.calls + 2,
                entities := w.entities ++ [⟨n, ty, obs, w.clock, w.clock⟩] }) := by
  simp [createEntity, tick, queryEntitiesByName, insertEntityRow, allOk,
    filter_name_eq_nil hfresh, any_name_eq_false hfresh]

/-- `createEntity` in the fault-free environment on an existing name: the
duplicate error, with the world unchanged apart from the clock reading and
the call count. -/
theorem createEntity_dup (w : W) (n ty : String) (obs : List String)
    (hdup : ¬ w.entities.filter (fun r => r.name == n) = []) :
    createEntity allOk n ty obs w =
      (Except.error ("Entity " ++ n ++ " already exists"),
       { w with clock := w.clock + 1, calls := w.calls + 1 }) := by
  simp only [createEntity, tick, queryEntitiesByName, allOk, Option.isNone_none,
    Bool.true_and]
  rw [if_pos]
  simp [List.isEmpty_iff, hdup]

/-- C1: `createEntity` against an existing name fails with the
already-exists error and leaves both tables exactly as they were; from any
store without the name, two sequential `createEntity` calls with that name
succeed the first time and fail the second.  ("Store state" is the contents
of the two tables; the clock and the call counter are not persistent
state.) -/
theorem c1_createEntity_unique (w : W) (n ty ty2 : String)
    (obs obs2 : List String) (hfresh : ∀ r ∈ w.entities, r.name ≠ n) :
    ((createEntity allOk n ty obs w).1 =
        Except.ok ⟨n, ty, obs, w.clock, w.clock⟩) ∧
    ((createEntity allOk n ty obs w).2.entities
        = w.entities ++ [⟨n, ty, obs, w.clock, w.clock⟩]) ∧
    ((createEntity allOk n ty2 obs2 (createEntity allOk n ty obs w).2).1 =
        Except.error ("Entity " ++ n ++ " already exists")) ∧
    ((createEntity allOk n ty2 obs2 (createEntity allOk n ty obs w).2).2.entities
        = (createEntity allOk n ty obs w).2.entities) ∧
    ((createEntity allOk n ty2 obs2 (createEntity allOk n ty obs w).2).2.relations
        = (createEntity allOk n ty obs w).2.relations) := by
  have h1 := createEntity_fresh w n ty obs hfresh
  have hdup : ¬ ((createEntity allOk n ty obs w).2.entities.filter
      (fun r => r.name == n)) = [] := by
    rw [h1]
    simp [List.filter_append, filter_name_eq_nil hfresh]
  have h2 := createEntity_dup ((createEntity allOk n ty obs w).2) n ty2 obs2 hdup
  refine ⟨by rw [h1], by rw [h1], by rw [h2], by rw [h2], by rw [h2]⟩

/-- C1 witness. -/
theorem c1_createEntity_unique_witness :
    ((createEntity allOk "a" "t" ["o"] ⟨[], [], 0, 0⟩).1 =
        Except.ok ⟨"a", "t", ["o"], 0, 0⟩) ∧
    ((createEntity allOk "a" "t" ["o"] ⟨[], [], 0, 0⟩).2.entities
        = [] ++ [⟨"a", "t", ["o"], 0, 0⟩]) ∧
    ((createEntity allOk "a" "u" []
        (createEntity allOk "a" "t" ["o"] ⟨[], [], 0, 0⟩).2).1 =
        Except.error ("Entity " ++ "a" ++ " already exists")) ∧
    ((createEntity allOk "a" "u" []
        (createEntity allOk "a" "t" ["o"] ⟨[], [], 0, 0⟩).2).2.entities
        = (createEntity allOk "a" "t" ["o"] ⟨[], [], 0, 0⟩).2.entities) ∧
    ((createEntity allOk "a" "u" []
        (createEntity allOk "a" "t" ["o"] ⟨[], [], 0, 0⟩).2).2.relations
        = (createEntity allOk "a" "t" ["o"] ⟨[], [], 0, 0⟩).2.relations) :=
  c1_createEntity_unique ⟨[], [], 0, 0⟩ "a" "t" "u" ["o"] []
    (by intro r hr; simp at hr)

/-- The fault-free `deleteEntity` in closed form. -/
theorem deleteEntity_allOk (w : W) (e : String) :
    deleteEntity allOk e w =
      { w with calls := w.calls + 3,
               entities := w.entities.filter (fun r => !(r.name == e)),
               relations := (w.relations.filter
                   (fun r => !(r.from_entity == e))).filter
                 (fun r => !(r.to_entity == e)) } := by
  simp [deleteEntity, deleteRelationsByFrom, deleteRelationsByTo,
    deleteEntityRowsByName, allOk]

/-- C2: after `deleteEntity e` (fault-free) no entity row is named `e` and
no relation row touches `e`; rows not touching `e` survive; the graph
returned by `readGraph` contains no entity named `e` and no relation
touching `e`; and a repeated `deleteEntity e` leaves both tables unchanged
(deletion is idempotent and, having no throw path, cannot raise: it is a
total function into `W`). -/
theorem c2_deleteEntity_cascade (w : W) (e : String) :
    (∀ r ∈ (deleteEntity allOk e w).entities, r.name ≠ e) ∧
    (∀ r ∈ (deleteEntity allOk e w).relations,
        r.from_entity ≠ e ∧ r.to_entity ≠ e) ∧
    (∀ r ∈ w.entities, r.name ≠ e → r ∈ (deleteEntity allOk e w).entities) ∧
    (∀ r ∈ w.relations, r.from_entity ≠ e → r.to_entity ≠ e →
        r ∈ (deleteEntity allOk e w).relations) ∧
    (∀ ent ∈ (readGraph (deleteEntity allOk e w)).1.entities,
        ent.name ≠ e) ∧
    (∀ rel ∈ (readGraph (deleteEntity allOk e w)).1.relations,
        rel.fromE ≠ e ∧ rel.toE ≠ e) ∧
    ((deleteEntity allOk e (deleteEntity allOk e w)).entities
        = (deleteEntity allOk e w).entities) ∧
    ((deleteEntity allOk e (deleteEntity allOk e w)).relations
        = (deleteEntity allOk e w).relations) := by
  rw [deleteEntity_allOk]
  refine ⟨?_, ?_, ?_, ?_, ?_, ?_, ?_, ?_⟩
  · intro r hr
    simp at hr
    exact hr.2
  · intro r hr
    simp at hr
    exact ⟨hr.2.2, hr.2.1⟩
  · intro r hr hne
    simp [List.mem_filter, hr, hne]
  · intro r hr h1 h2
    simp [List.mem_filter, hr, h1, h2]
  · intro ent hent
    simp [readGraph, queryAllRowsEmptyConditions] at hent
  · intro rel hrel
    simp [readGraph, queryAllRowsEmptyConditions] at hrel
  · simp only [deleteEntity_allOk]
    have h1 : ∀ a ∈ w.entities.filter (fun r => !(r.name == e)),
        (!(a.name == e)) = true := by
      intro a ha
      exact (List.mem_filter.mp ha).2
    exact List.filter_eq_self.mpr h1
  · simp only [deleteEntity_allOk]
    have h1 : ∀ a ∈ (w.relations.filter
          (fun r => !(r.from_entity == e))).filter
          (fun r => !(r.to_entity == e)),
        (!(a.from_entity == e)) = true := by
      intro a ha
      exact (List.mem_filter.mp (List.mem_filter.mp ha).1).2
    have h2 : ∀ a ∈ (w.relations.filter
          (fun r => !(r.from_entity == e))).filter
          (fun r => !(r.to_entity == e)),
        (!(a.to_entity == e)) = true := by
      intro a ha
      exact (List.mem_filter.mp ha).2
    rw [List.filter_eq_self.mpr h1, List.filter_eq_self.mpr h2]

/-- C3, evaluated at the failing input: with entities `a` and `b` present,
`createRelation` with a missing endpoint fails naming it and inserts
nothing; with both endpoints present it inserts a new relation row even
when an identical `(from, to, relationType)` triple is already stored —
but the inserted row is NOT subsequently returned by `readGraph()`:
`readGraph` queries both tables with an empty conditions object, which
`queryData` turns into the malformed SQL `SELECT * FROM <table> WHERE `
(empty WHERE clause), so both reads fail and `readGraph` answers the empty
graph, contradicting the claim's final part. -/
theorem c3_createRelation_readGraph_defect :
    ((createRelation allOk "c" "b" "likes"
        ⟨[⟨"a", "t", [], 0, 0⟩, ⟨"b", "t", [], 1, 1⟩], [], 2, 4⟩).1 =
      Except.error ("Entity " ++ "c" ++ " does not exist")) ∧
    ((createRelation allOk "c" "b" "likes"
        ⟨[⟨"a", "t", [], 0, 0⟩, ⟨"b", "t", [], 1, 1⟩], [], 2, 4⟩).2.relations
      = []) ∧
    ((createRelation allOk "a" "c" "likes"
        ⟨[⟨"a", "t", [], 0, 0⟩, ⟨"b", "t", [], 1, 1⟩], [], 2, 4⟩).1 =
      Except.error ("Entity " ++ "c" ++ " does not exist")) ∧
    ((createRelation allOk "a" "c" "likes"
        ⟨[⟨"a", "t", [], 0, 0⟩, ⟨"b", "t", [], 1, 1⟩], [], 2, 4⟩).2.relations
      = []) ∧
    ((createRelation allOk "a" "b" "likes"
        ⟨[⟨"a", "t", [], 0, 0⟩, ⟨"b", "t", [], 1, 1⟩], [], 2, 4⟩).1 =
      Except.ok ⟨"a", "b", "likes", 2⟩) ∧
    ((createRelation allOk "a" "b" "likes"
        ⟨[⟨"a", "t", [], 0, 0⟩, ⟨"b", "t", [], 1, 1⟩], [], 2, 4⟩).2.relations
      = [⟨"a", "b", "likes", 2⟩]) ∧
    ((createRelation allOk "a" "b" "likes"
        (createRelation allOk "a" "b" "likes"
          ⟨[⟨"a", "t", [], 0, 0⟩, ⟨"b", "t", [], 1, 1⟩], [], 2, 4⟩).2).2.relations
      = [⟨"a", "b", "likes", 2⟩, ⟨"a", "b", "likes", 3⟩]) ∧
    ((readGraph (createRelation allOk "a" "b" "likes"
        (createRelation allOk "a" "b" "likes"
          ⟨[⟨"a", "t", [], 0, 0⟩, ⟨"b", "t", [], 1, 1⟩], [], 2, 4⟩).2).2).1.relations
      = []) ∧
    ((readGraph (createRelation allOk "a" "b" "likes"
        (createRelation allOk "a" "b" "likes"
          ⟨[⟨"a", "t", [], 0, 0⟩, ⟨"b", "t", [], 1, 1⟩], [], 2, 4⟩).2).2).1.entities
      = []) :=
  ⟨rfl, rfl, rfl, rfl, rfl, rfl, rfl, rfl, rfl⟩

/-- Updating rows selected by name through `map` commutes with filtering by
that name, for any transform that preserves the name column. -/
theorem filter_name_map_update (l : List EntityRow) (e : String)
    (f : EntityRow → EntityRow) (hf : ∀ r, (f r).name = r.name) :
    ((l.map (fun r => if r.name == e then f r else r)).filter
        (fun r => r.name == e))
      = (l.filter (fun r => r.name == e)).map f := by
  induction l with
  | nil => simp
  | cons a l ih =>
    by_cases ha : a.name = e
    · simp only [List.map_cons, List.filter_cons, ha, beq_self_eq_true,
        if_true, hf, List.map_cons]
      rw [ih]
    · have hb : (a.name == e) = false := by simpa using ha
      simp only [List.map_cons, List.filter_cons, hb, Bool.false_eq_true,
        if_false, cond_false]
      rw [ih]

/-- C4: `deleteObservation` on an existing entity removes exactly the
stored observations whose value occurs in the given list — every
occurrence of a matching value (the count of a removed value drops to 0,
the count of any other value is unchanged) — and keeps the remaining
elements in their relative order (the new sequence is a sublist of the old
one); the new sequence is written back to the entity's row. -/
theorem c4_deleteObservation_removes_all (w : W) (e : String)
    (row : EntityRow) (toDel : List String)
    (hrow : w.entities.filter (fun r => r.name == e) = [row]) :
    ((deleteObservation allOk e toDel w).1 =
        Except.ok ⟨row.name, row.entity_type,
          row.observations.filter (fun o => !(toDel.contains o)),
          row.created_at, w.clock⟩) ∧
    (((deleteObservation allOk e toDel w).2.entities.filter
        (fun r => r.name == e)) =
      [{ row with
           observations := row.observations.filter
             (fun o => !(toDel.contains o)),
           updated_at := w.clock }]) ∧
    ((row.observations.filter (fun o => !(toDel.contains o))).Sublist
        row.observations) ∧
    (∀ o : String,
        (row.observations.filter (fun o2 => !(toDel.contains o2))).count o
          = if o ∈ toDel then 0 else row.observations.count o) := by
  refine ⟨?_, ?_, List.filter_sublist _, ?_⟩
  · simp [deleteObservation, queryEntitiesByName, tick, updateEntityRow,
      allOk, hrow]
  · have h2 : (deleteObservation allOk e toDel w).2.entities =
        w.entities.map (fun r =>
          if r.name == e then
            { r with
                observations := row.observations.filter
                  (fun o => !(toDel.contains o)),
                updated_at := w.clock }
          else r) := by
      simp [deleteObservation, queryEntitiesByName, tick, updateEntityRow,
        allOk, hrow]
    rw [h2, filter_name_map_update w.entities e
      (fun r =>
        { r with
            observations := row.observations.filter
              (fun o => !(toDel.contains o)),
            updated_at := w.clock })
      (fun r => rfl), hrow]
    rfl
  · intro o
    by_cases ho : o ∈ toDel
    · rw [if_pos ho]
      rw [List.count_eq_zero]
      intro hmem
      have := (List.mem_filter.mp hmem).2
      simp [ho] at this
    · rw [if_neg ho]
      apply List.count_filter
      simpa using ho

/-- C4 witness: stored observations `["x","y","x"]`, removing `["x"]`
deletes both occurrences and leaves exactly `["y"]`. -/
theorem c4_deleteObservation_removes_all_witness :
    ((deleteObservation allOk "e" ["x"]
        ⟨[⟨"e", "t", ["x", "y", "x"], 0, 0⟩], [], 1, 0⟩).1 =
      Except.ok ⟨"e", "t",
        (["x", "y", "x"].filter (fun o => !(["x"].contains o))), 0, 1⟩) ∧
    (((deleteObservation allOk "e" ["x"]
        ⟨[⟨"e", "t", ["x", "y", "x"], 0, 0⟩], [], 1, 0⟩).2.entities.filter
          (fun r => r.name == "e")) =
      [⟨"e", "t", (["x", "y", "x"].filter (fun o => !(["x"].contains o))),
        0, 1⟩]) ∧
    ((["x", "y", "x"].filter (fun o => !(["x"].contains o))).Sublist
      ["x", "y", "x"]) ∧
    (∀ o : String,
        (["x", "y", "x"].filter (fun o2 => !(["x"].contains o2))).count o
          = if o ∈ ["x"] then 0 else ["x", "y", "x"].count o) :=
  c4_deleteObservation_removes_all
    ⟨[⟨"e", "t", ["x", "y", "x"], 0, 0⟩], [], 1, 0⟩ "e"
    ⟨"e", "t", ["x", "y", "x"], 0, 0⟩ ["x"] (by decide)

/-- C5: `createEntities` on `[a, a(duplicate), b]` from a store containing
neither name: the batch does not throw (it is a total function), the
duplicate middle element is skipped without aborting the batch or rolling
back the first insert, the returned list contains exactly the two created
entities, and exactly those two rows are appended to the store. -/
theorem c5_createEntities_partial_failure (w : W) (a b ta ta2 tb : String)
    (oa oa2 ob : List String) (hab : a ≠ b)
    (hfa : ∀ r ∈ w.entities, r.name ≠ a)
    (hfb : ∀ r ∈ w.entities, r.name ≠ b) :
    ((createEntities allOk [⟨a, ta, oa⟩, ⟨a, ta2, oa2⟩, ⟨b, tb, ob⟩] w).1 =
        [⟨a, ta, oa, w.clock, w.clock⟩,
         ⟨b, tb, ob, w.clock + 2, w.clock + 2⟩]) ∧
    ((createEntities allOk [⟨a, ta, oa⟩, ⟨a, ta2, oa2⟩, ⟨b, tb, ob⟩]
        w).2.entities =
      w.entities ++ [⟨a, ta, oa, w.clock, w.clock⟩,
                     ⟨b, tb, ob, w.clock + 2, w.clock + 2⟩]) := by
  have hdup : ¬ ((w.entities ++ [(⟨a, ta, oa, w.clock, w.clock⟩ :
      EntityRow)]).filter (fun r => r.name == a)) = [] := by
    simp [List.filter_append, filter_name_eq_nil hfa]
  have hf3 : ∀ r ∈ w.entities ++ [(⟨a, ta, oa, w.clock, w.clock⟩ :
      EntityRow)], r.name ≠ b := by
    intro r hr
    rcases List.mem_append.mp hr with h | h
    · exact hfb r h
    · simp at h
      subst h
      simpa using hab
  have h1 : createEntity allOk a ta oa w =
      (Except.ok ⟨a, ta, oa, w.clock, w.clock⟩,
       ⟨w.entities ++ [⟨a, ta, oa, w.clock, w.clock⟩], w.relations,
        w.clock + 1, w.calls + 2⟩) :=
    createEntity_fresh w a ta oa hfa
  have h2 : createEntity allOk a ta2 oa2
      ⟨w.entities ++ [⟨a, ta, oa, w.clock, w.clock⟩], w.relations,
       w.clock + 1, w.calls + 2⟩ =
      (Except.error ("Entity " ++ a ++ " already exists"),
       ⟨w.entities ++ [⟨a, ta, oa, w.clock, w.clock⟩], w.relations,
        w.clock + 2, w.calls + 3⟩) :=
    createEntity_dup _ a ta2 oa2 hdup
  have h3 : createEntity allOk b tb ob
      ⟨w.entities ++ [⟨a, ta, oa, w.clock, w.clock⟩], w.relations,
       w.clock + 2, w.calls + 3⟩ =
      (Except.ok ⟨b, tb, ob, w.clock + 2, w.clock + 2⟩,
       ⟨(w.entities ++ [⟨a, ta, oa, w.clock, w.clock⟩]) ++
          [⟨b, tb, ob, w.clock + 2, w.clock + 2⟩], w.relations,
        w.clock + 3, w.calls + 5⟩) :=
    createEntity_fresh _ b tb ob hf3
  simp [createEntities, h1, h2, h3]

/-- C5 witness: the concrete batch `[a, a, b]` of the claim, from the empty
store. -/
theorem c5_createEntities_partial_failure_witness :
    ((createEntities allOk
        [⟨"a", "t1", ["o"]⟩, ⟨"a", "t2", []⟩, ⟨"b", "t3", []⟩]
        ⟨[], [], 0, 0⟩).1 =
      [⟨"a", "t1", ["o"], 0, 0⟩, ⟨"b", "t3", [], 2, 2⟩]) ∧
    ((createEntities allOk
        [⟨"a", "t1", ["o"]⟩, ⟨"a", "t2", []⟩, ⟨"b", "t3", []⟩]
        ⟨[], [], 0, 0⟩).2.entities =
      [⟨"a", "t1", ["o"], 0, 0⟩, ⟨"b", "t3", [], 2, 2⟩]) :=
  c5_createEntities_partial_failure ⟨[], [], 0, 0⟩ "a" "b" "t1" "t2" "t3"
    ["o"] [] [] (by decide) (by simp) (by simp)

/-! Substring semantics of the `LIKE` queries (claim C6). -/

/-- The substring test as the spec words it: the needle occurs contiguously
in the haystack. -/
def containsSubstring (hay needle : String) : Bool :=
  hay.data.tails.any (fun s => needle.data.isPrefixOf s)

theorem containsSubstring_iff (hay needle : String) :
    containsSubstring hay needle = true ↔ needle.data <:+: hay.data := by
  simp only [containsSubstring, List.any_eq_true, List.mem_tails,
    List.isPrefixOf_iff_prefix]
  constructor
  · rintro ⟨x, hx, hn⟩
    exact List.infix_iff_prefix_suffix.mpr ⟨x, hn, hx⟩
  · intro h
    rcases List.infix_iff_prefix_suffix.mp h with ⟨x, hn, hx⟩
    exact ⟨x, hx, hn⟩

theorem likeMatch_percent_cons (ps t : List Char) :
    likeMatch ('%' :: ps) t = t.tails.any (fun s => likeMatch ps s) := by
  simp [likeMatch]

theorem likeMatch_lit_nil {p : Char} (ps : List Char)
    (h1 : p ≠ '%') (h2 : p ≠ '_') : likeMatch (p :: ps) [] = false := by
  simp [likeMatch, h1, h2]

theorem likeMatch_lit_cons {p : Char} (ps : List Char) (c : Char)
    (t : List Char) (h1 : p ≠ '%') (h2 : p ≠ '_') :
    likeMatch (p :: ps) (c :: t) = ((c == p) && likeMatch ps t) := by
  simp [likeMatch, h1, h2]

/-- A wildcard-free literal pattern followed by `%` matches exactly the
texts having the literal as a prefix. -/
theorem likeMatch_lit_percent (lit : List Char) :
    (∀ c ∈ lit, c ≠ '%' ∧ c ≠ '_') → ∀ t : List Char,
      (likeMatch (lit ++ ['%']) t = true ↔ lit <+: t) := by
  induction lit with
  | nil =>
    intro _ t
    rw [List.nil_append, likeMatch_percent_cons, List.any_eq_true]
    constructor
    · intro _
      exact List.nil_prefix
    · intro _
      exact ⟨[], (List.mem_tails _ _).mpr List.nil_suffix, rfl⟩
  | cons c lit ih =>
    intro h t
    have hc := h c (List.mem_cons_self c lit)
    have hrest : ∀ x ∈ lit, x ≠ '%' ∧ x ≠ '_' :=
      fun x hx => h x (List.mem_cons_of_mem c hx)
    cases t with
    | nil =>
      rw [List.cons_append, likeMatch_lit_nil _ hc.1 hc.2]
      simp
    | cons d t2 =>
      rw [List.cons_append, likeMatch_lit_cons _ _ _ hc.1 hc.2,
        Bool.and_eq_true, beq_iff_eq, ih hrest t2, List.cons_prefix_cons]
      constructor
      · rintro ⟨rfl, hp⟩
        exact ⟨rfl, hp⟩
      · rintro ⟨rfl, hp⟩
        exact ⟨rfl, hp⟩

/-- `%lit%` with a wildcard-free literal matches exactly the texts having
the literal as a contiguous substring. -/
theorem likeMatch_infix_pattern (lit : List Char)
    (h : ∀ c ∈ lit, c ≠ '%' ∧ c ≠ '_') (t : List Char) :
    likeMatch ('%' :: (lit ++ ['%'])) t = true ↔ lit <:+: t := by
  rw [likeMatch_percent_cons, List.any_eq_true]
  constructor
  · rintro ⟨s, hs, hm⟩
    exact List.infix_iff_prefix_suffix.mpr
      ⟨s, (likeMatch_lit_percent lit h s).mp hm, (List.mem_tails _ _).mp hs⟩
  · intro hinf
    rcases List.infix_iff_prefix_suffix.mp hinf with ⟨s, hp, hsuf⟩
    exact ⟨s, (List.mem_tails _ _).mpr hsuf, (likeMatch_lit_percent lit h s).mpr hp⟩

/-- `Char.ofNat` of a scalar value below the surrogate range keeps its
numeric value. -/
theorem toNat_ofNat_valid {n : Nat} (h : n < 55296) :
    (Char.ofNat n).toNat = n := by
  have hv : n.isValidChar := Or.inl h
  rw [Char.ofNat, dif_pos hv]
  rfl

/-- Lowercasing maps only basic-latin capitals, and maps them into the
lowercase-letter range (97-122), so it preserves being different from any
character below that range — in particular from `%` (37) and `_` (95). -/
theorem toLower_ne_wild {c w : Char} (hw : w.toNat < 97) (h : c ≠ w) :
    Char.toLower c ≠ w := by
  intro hcontra
  rw [Char.toLower] at hcontra
  by_cases hrange : c.toNat ≥ 65 ∧ c.toNat ≤ 90
  · rw [if_pos hrange] at hcontra
    have hn : (Char.ofNat (c.toNat + 32)).toNat = c.toNat + 32 :=
      toNat_ofNat_valid (by omega)
    rw [hcontra] at hn
    omega
  · rw [if_neg hrange] at hcontra
    exact h hcontra

theorem sqlLower_wildcard_free {q : String}
    (hq : ∀ c ∈ q.data, c ≠ '%' ∧ c ≠ '_') :
    ∀ c ∈ (sqlLower q).data, c ≠ '%' ∧ c ≠ '_' := by
  intro c hc
  simp only [sqlLower, List.mem_map] at hc
  rcases hc with ⟨d, hd, rfl⟩
  exact ⟨toLower_ne_wild (by decide) (hq d hd).1,
         toLower_ne_wild (by decide) (hq d hd).2⟩

/-- On basic-latin (ASCII) characters the Unicode lowercasing of
JavaScript and the ASCII lowercasing of SQLite coincide. -/
theorem jsLowerChar_ascii {c : Char} (h : c.toNat < 128) :
    jsLowerChar c = Char.toLower c := by
  rw [jsLowerChar, Char.toLower]
  by_cases h1 : c.toNat ≥ 65 ∧ c.toNat ≤ 90
  · rw [if_pos h1, if_pos h1]
  · rw [if_neg h1, if_neg h1, if_neg (by omega)]

/-- On basic-latin strings, `query.toLowerCase()` equals SQLite `LOWER`. -/
theorem jsLower_eq_sqlLower {q : String}
    (h : ∀ c ∈ q.data, c.toNat < 128) : jsLower q = sqlLower q := by
  rw [jsLower, sqlLower]
  exact congrArg String.mk
    (List.map_congr_left (fun c hc => jsLowerChar_ascii (h c hc)))

/-- For a wildcard-free parameter, the `LIKE '%' || p || '%'` test is
exactly the substring test. -/
theorem sqlLike_wildcard_free (text pat : String)
    (hp : ∀ c ∈ pat.data, c ≠ '%' ∧ c ≠ '_') :
    sqlLike text ("%" ++ pat ++ "%") = containsSubstring text pat := by
  have hdata : ("%" ++ pat ++ "%").data = '%' :: (pat.data ++ ['%']) := by
    simp
  rw [sqlLike, hdata, ← Bool.coe_iff_coe]
  exact (likeMatch_infix_pattern pat.data hp text.data).trans
    (containsSubstring_iff text pat).symm

/-- Entity matching as the spec words it: the lowercased query is a
substring of the lowercased name, entity type, or serialized observations
text. -/
def specEntityMatch (query : String) (r : EntityRow) : Bool :=
  containsSubstring (sqlLower r.name) (sqlLower query) ||
  containsSubstring (sqlLower r.entity_type) (sqlLower query) ||
  containsSubstring (sqlLower (serializeObservations r.observations))
    (sqlLower query)

/-- Relation matching as the spec words it: the lowercased query is a
substring of the relation type or of either endpoint name. -/
def specRelationMatch (query : String) (r : RelationRow) : Bool :=
  containsSubstring (sqlLower r.relation_type) (sqlLower query) ||
  containsSubstring (sqlLower r.from_entity) (sqlLower query) ||
  containsSubstring (sqlLower r.to_entity) (sqlLower query)

theorem entityMatchSql_eq_spec {q : String}
    (hq : ∀ c ∈ q.data, c ≠ '%' ∧ c ≠ '_')
    (ha : ∀ c ∈ q.data, c.toNat < 128) (r : EntityRow) :
    entityMatchSql q r = specEntityMatch q r := by
  have h := sqlLower_wildcard_free hq
  simp only [entityMatchSql, specEntityMatch, jsLower_eq_sqlLower ha,
    sqlLike_wildcard_free _ _ h]

theorem relationMatchSql_eq_spec {q : String}
    (hq : ∀ c ∈ q.data, c ≠ '%' ∧ c ≠ '_')
    (ha : ∀ c ∈ q.data, c.toNat < 128) (r : RelationRow) :
    relationMatchSql q r = specRelationMatch q r := by
  have h := sqlLower_wildcard_free hq
  simp only [relationMatchSql, specRelationMatch, jsLower_eq_sqlLower ha,
    sqlLike_wildcard_free _ _ h]

/-- C6, refuted at two concrete inputs — the claim says `searchNodes`
returns exactly the entities whose lowercased name, type or serialized
observations contain the lowercased query as a substring
(`specEntityMatch` renders that condition; on both inputs below every
lowercasing agrees on giving the same verdict).  First, query `a_c` over
the single entity `abc`: no field contains `a_c` as a substring, yet the
entity is returned — the query is interpolated into the SQL `LIKE`
pattern, where `_` matches any single character.  Second, query `É` over
the single entity `É`: the lowercased query `é` is a substring of the
lowercased name `é`, yet nothing is returned — the pattern side is
lowercased by JavaScript's Unicode `toLowerCase` (giving `%é%`) while the
column side gets SQLite's ASCII-only `LOWER` (leaving `É`), so the `LIKE`
comparison misses. -/
theorem c6_searchNodes_counterexample :
    ((searchNodes allOk "a_c"
        ⟨[⟨"abc", "t", [], 0, 0⟩], [], 1, 0⟩).1.entities =
      [⟨"abc", "t", [], 0, 0⟩]) ∧
    (specEntityMatch "a_c" ⟨"abc", "t", [], 0, 0⟩ = false) ∧
    ((searchNodes allOk "É"
        ⟨[⟨"É", "t", [], 0, 0⟩], [], 1, 0⟩).1.entities = []) ∧
    (specEntityMatch "É" ⟨"É", "t", [], 0, 0⟩ = true) :=
  ⟨rfl, rfl, rfl, rfl⟩

/-- C6 as amended: for a query of basic-latin (ASCII) characters
containing no `LIKE` metacharacter (`%` or `_`), `searchNodes` returns
exactly the entities and exactly the relations satisfying the spec's
substring condition, stored fields being lowercased by SQLite's ASCII-only
`LOWER`; the two filters are computed independently (each result component
is a function of its own table only — a relation is never included because
an endpoint entity matched, and vice versa).  Outside that scope the
claim fails: `%`/`_` act as wildcards, and a non-ASCII cased letter in
the query is lowercased on the pattern side (Unicode `toLowerCase`) but
not on the column side (ASCII `LOWER`), so the match can miss. -/
theorem c6_searchNodes_substring (w : W) (q : String)
    (hq : ∀ c ∈ q.data, c ≠ '%' ∧ c ≠ '_')
    (hascii : ∀ c ∈ q.data, c.toNat < 128) :
    ((searchNodes allOk q w).1.entities =
        (w.entities.filter (specEntityMatch q)).map rowToEntity) ∧
    ((searchNodes allOk q w).1.relations =
        (w.relations.filter (specRelationMatch q)).map rowToRelation) := by
  have he : entityMatchSql q = specEntityMatch q :=
    funext (entityMatchSql_eq_spec hq hascii)
  have hr : relationMatchSql q = specRelationMatch q :=
    funext (relationMatchSql_eq_spec hq hascii)
  constructor
  · simp [searchNodes, execSearchEntities, execSearchRelations, allOk, he]
  · simp [searchNodes, execSearchEntities, execSearchRelations, allOk, hr]

/-- C6 witness: the spec's own example, query `auth` over a store holding
entity `user_auth` and a relation pointing at it. -/
theorem c6_searchNodes_substring_witness :
    ((searchNodes allOk "auth"
        ⟨[⟨"user_auth", "feature", [], 0, 0⟩, ⟨"db", "component", [], 0, 0⟩],
         [⟨"db", "user_auth", "serves", 1⟩], 2, 0⟩).1.entities =
      (([⟨"user_auth", "feature", [], 0, 0⟩,
         ⟨"db", "component", [], 0, 0⟩] : List EntityRow).filter
          (specEntityMatch "auth")).map rowToEntity) ∧
    ((searchNodes allOk "auth"
        ⟨[⟨"user_auth", "feature", [], 0, 0⟩, ⟨"db", "component", [], 0, 0⟩],
         [⟨"db", "user_auth", "serves", 1⟩], 2, 0⟩).1.relations =
      (([⟨"db", "user_auth", "serves", 1⟩] : List RelationRow).filter
          (specRelationMatch "auth")).map rowToRelation) :=
  c6_searchNodes_substring
    ⟨[⟨"user_auth", "feature", [], 0, 0⟩, ⟨"db", "component", [], 0, 0⟩],
     [⟨"db", "user_auth", "serves", 1⟩], 2, 0⟩ "auth" (by decide) (by decide)

/-- C7: on an entity with no prior observations whose stored timestamps lie
in the past, `addObservation e ["a","b"]` then `deleteObservation e ["a"]`
returns and stores observations `["a","b"]` then exactly `["b"]`;
`createdAt` is unchanged throughout, and `updatedAt` is strictly greater
after each mutation than before it (`ua < w.clock < w.clock + 1`). -/
theorem addObservation_found (w : W) (e : String) (row : EntityRow)
    (contents : List String)
    (hrow : w.entities.filter (fun r => r.name == e) = [row]) :
    addObservation allOk e contents w =
      (Except.ok ⟨row.name, row.entity_type, row.observations ++ contents,
         row.created_at, w.clock⟩,
       ⟨w.entities.map (fun r =>
          if r.name == e then
            { r with observations := row.observations ++ contents,
                     updated_at := w.clock }
          else r), w.relations, w.clock + 1, w.calls + 2⟩) := by
  simp [addObservation, queryEntitiesByName, tick, updateEntityRow, allOk,
    hrow]

theorem deleteObservation_found (w : W) (e : String) (row : EntityRow)
    (toDel : List String)
    (hrow : w.entities.filter (fun r => r.name == e) = [row]) :
    deleteObservation allOk e toDel w =
      (Except.ok ⟨row.name, row.entity_type,
         row.observations.filter (fun o => !(toDel.contains o)),
         row.created_at, w.clock⟩,
       ⟨w.entities.map (fun r =>
          if r.name == e then
            { r with observations := row.observations.filter
                       (fun o => !(toDel.contains o)),
                     updated_at := w.clock }
          else r), w.relations, w.clock + 1, w.calls + 2⟩) := by
  simp [deleteObservation, queryEntitiesByName, tick, updateEntityRow, allOk,
    hrow]

/-- Specialization of `filter_name_map_update` to the observation-update
shape (first-order pattern, usable by `rw` without naming the transform). -/
theorem filter_name_update_map (l : List EntityRow) (e : String)
    (obs : List String) (t : Nat) :
    ((l.map (fun r => if r.name == e then
        { r with observations := obs, updated_at := t } else r)).filter
          (fun r => r.name == e))
      = (l.filter (fun r => r.name == e)).map
          (fun r => { r with observations := obs, updated_at := t }) :=
  filter_name_map_update l e
    (fun r => { r with observations := obs, updated_at := t })
    (fun _ => rfl)

theorem c7_observation_roundtrip (w : W) (e ty : String) (ca ua : Nat)
    (hrow : w.entities.filter (fun r => r.name == e) = [⟨e, ty, [], ca, ua⟩])
    (hpast : ua < w.clock) :
    ((addObservation allOk e ["a", "b"] w).1 =
        Except.ok ⟨e, ty, ["a", "b"], ca, w.clock⟩) ∧
    (((addObservation allOk e ["a", "b"] w).2.entities.filter
        (fun r => r.name == e)) = [⟨e, ty, ["a", "b"], ca, w.clock⟩]) ∧
    ((deleteObservation allOk e ["a"]
        (addObservation allOk e ["a", "b"] w).2).1 =
      Except.ok ⟨e, ty, ["b"], ca, w.clock + 1⟩) ∧
    (((deleteObservation allOk e ["a"]
        (addObservation allOk e ["a", "b"] w).2).2.entities.filter
          (fun r => r.name == e)) = [⟨e, ty, ["b"], ca, w.clock + 1⟩]) ∧
    (ua < w.clock ∧ w.clock < w.clock + 1) := by
  have h1 := addObservation_found w e ⟨e, ty, [], ca, ua⟩ ["a", "b"] hrow
  have hw1 : (addObservation allOk e ["a", "b"] w).2 =
      (⟨w.entities.map (fun r =>
          if r.name == e then
            { r with observations := ["a", "b"], updated_at := w.clock }
          else r), w.relations, w.clock + 1, w.calls + 2⟩ : W) := by
    rw [h1]
    rfl
  have hfil1 : ((w.entities.map (fun r =>
        if r.name == e then
          { r with observations := ["a", "b"], updated_at := w.clock }
        else r)).filter (fun r => r.name == e)) =
      [⟨e, ty, ["a", "b"], ca, w.clock⟩] := by
    rw [filter_name_update_map, hrow]
    rfl
  have h2 := deleteObservation_found
    (⟨w.entities.map (fun r =>
        if r.name == e then
          { r with observations := ["a", "b"], updated_at := w.clock }
        else r), w.relations, w.clock + 1, w.calls + 2⟩ : W) e
    ⟨e, ty, ["a", "b"], ca, w.clock⟩ ["a"] hfil1
  refine ⟨by rw [h1]; rfl, by rw [hw1]; exact hfil1, ?_, ?_,
    hpast, Nat.lt_succ_self _⟩
  · rw [hw1, h2]
    rfl
  · rw [hw1, h2]
    simp only []
    rw [filter_name_update_map, hfil1]
    rfl

/-- C7 witness. -/
theorem c7_observation_roundtrip_witness :
    ((addObservation allOk "e" ["a", "b"]
        ⟨[⟨"e", "t", [], 0, 0⟩], [], 1, 0⟩).1 =
      Except.ok ⟨"e", "t", ["a", "b"], 0, 1⟩) ∧
    (((addObservation allOk "e" ["a", "b"]
        ⟨[⟨"e", "t", [], 0, 0⟩], [], 1, 0⟩).2.entities.filter
          (fun r => r.name == "e")) = [⟨"e", "t", ["a", "b"], 0, 1⟩]) ∧
    ((deleteObservation allOk "e" ["a"]
        (addObservation allOk "e" ["a", "b"]
          ⟨[⟨"e", "t", [], 0, 0⟩], [], 1, 0⟩).2).1 =
      Except.ok ⟨"e", "t", ["b"], 0, 2⟩) ∧
    (((deleteObservation allOk "e" ["a"]
        (addObservation allOk "e" ["a", "b"]
          ⟨[⟨"e", "t", [], 0, 0⟩], [], 1, 0⟩).2).2.entities.filter
            (fun r => r.name == "e")) = [⟨"e", "t", ["b"], 0, 2⟩]) ∧
    ((0 : Nat) < 1 ∧ (1 : Nat) < 1 + 1) :=
  c7_observation_roundtrip ⟨[⟨"e", "t", [], 0, 0⟩], [], 1, 0⟩ "e" "t" 0 0
    (by decide) (by decide)

/-- C8, refuted at a concrete input: the storage collaborator reports
failure on the update call (call index 1) inside `addObservation`, yet the
method returns the updated entity as a normal result and the store keeps
the old row — the failure, message and cause included, is silently
swallowed rather than surfaced to the caller. -/
theorem c8_store_failure_swallowed :
    ((addObservation (fun k => if k = 1 then some "disk failure" else none)
        "a" ["y"] ⟨[⟨"a", "t", ["x"], 0, 0⟩], [], 1, 0⟩).1 =
      Except.ok ⟨"a", "t", ["x", "y"], 0, 1⟩) ∧
    ((addObservation (fun k => if k = 1 then some "disk failure" else none)
        "a" ["y"] ⟨[⟨"a", "t", ["x"], 0, 0⟩], [], 1, 0⟩).2.entities =
      [⟨"a", "t", ["x"], 0, 0⟩]) :=
  ⟨rfl, rfl⟩

/-- C8 as amended: store failures are propagated (message included) only
where the engine inspects the result — the insert of `createEntity` and of
`createRelation`.  The three delete calls of `deleteEntity`, the update
call of `addObservation`/`deleteObservation`, and the two reads of
`readGraph` have their results ignored: those operations complete with a
normal (for `readGraph`: empty) result whatever the collaborator
reports. -/
theorem c8_store_failure_policy :
    (∀ (w : W) (n ty : String) (obs : List String) (σ : Env) (msg : String),
      σ w.calls = none → σ (w.calls + 1) = some msg →
      (∀ r ∈ w.entities, r.name ≠ n) →
      (createEntity σ n ty obs w).1 =
          Except.error ("Failed to create entity: " ++ msg) ∧
        (createEntity σ n ty obs w).2.entities = w.entities) ∧
    (∀ (w : W) (f t rt : String) (σ : Env) (msg : String),
      σ w.calls = none → σ (w.calls + 1) = none →
      σ (w.calls + 2) = some msg →
      w.entities.filter (fun r => r.name == f) ≠ [] →
      w.entities.filter (fun r => r.name == t) ≠ [] →
      (createRelation σ f t rt w).1 =
          Except.error ("Failed to create relation: " ++ msg) ∧
        (createRelation σ f t rt w).2.relations = w.relations) ∧
    (∀ (w : W) (e msg : String),
      (deleteEntity (fun _ => some msg) e w).entities = w.entities ∧
      (deleteEntity (fun _ => some msg) e w).relations = w.relations) ∧
    (∀ (w : W) (e : String) (contents : List String) (σ : Env)
        (msg : String),
      σ w.calls = none → σ (w.calls + 1) = some msg →
      w.entities.filter (fun r => r.name == e) ≠ [] →
      (∃ ent, (addObservation σ e contents w).1 = Except.ok ent) ∧
        (addObservation σ e contents w).2.entities = w.entities) ∧
    (∀ (w : W) (e : String) (toDel : List String) (σ : Env) (msg : String),
      σ w.calls = none → σ (w.calls + 1) = some msg →
      w.entities.filter (fun r => r.name == e) ≠ [] →
      (∃ ent, (deleteObservation σ e toDel w).1 = Except.ok ent) ∧
        (deleteObservation σ e toDel w).2.entities = w.entities) ∧
    (∀ w : W, (readGraph w).1 = ⟨[], []⟩) := by
  refine ⟨?_, ?_, ?_, ?_, ?_, fun w => rfl⟩
  · intro w n ty obs σ msg h0 h1 hfresh
    constructor <;>
      simp [createEntity, tick, queryEntitiesByName, insertEntityRow, h0, h1,
        filter_name_eq_nil hfresh]
  · intro w f t rt σ msg h0 h1 h2 hf ht
    have hfe : (w.entities.filter (fun r => r.name == f)).isEmpty = false :=
      List.isEmpty_eq_false.mpr hf
    have hte : (w.entities.filter (fun r => r.name == t)).isEmpty = false :=
      List.isEmpty_eq_false.mpr ht
    constructor <;>
      simp [createRelation, tick, queryEntitiesByName, insertRelationRow,
        h0, h1, h2, hfe, hte]
  · intro w e msg
    constructor <;>
      simp [deleteEntity, deleteRelationsByFrom, deleteRelationsByTo,
        deleteEntityRowsByName]
  · intro w e contents σ msg h0 h1 hne
    rcases hfil : w.entities.filter (fun r => r.name == e) with _ | ⟨a, rest⟩
    · exact absurd hfil hne
    · constructor
      · refine ⟨⟨a.name, a.entity_type, a.observations ++ contents,
          a.created_at, w.clock⟩, ?_⟩
        simp [addObservation, queryEntitiesByName, tick, updateEntityRow,
          h0, h1, hfil]
      · simp [addObservation, queryEntitiesByName, tick, updateEntityRow,
          h0, h1, hfil]
  · intro w e toDel σ msg h0 h1 hne
    rcases hfil : w.entities.filter (fun r => r.name == e) with _ | ⟨a, rest⟩
    · exact absurd hfil hne
    · constructor
      · refine ⟨⟨a.name, a.entity_type,
          a.observations.filter (fun o => !(toDel.contains o)),
          a.created_at, w.clock⟩, ?_⟩
        simp [deleteObservation, queryEntitiesByName, tick, updateEntityRow,
          h0, h1, hfil]
      · simp [deleteObservation, queryEntitiesByName, tick, updateEntityRow,
          h0, h1, hfil]

/-- C8 witness: the propagating half, at a concrete input (the insert call
of `createEntity` fails with message `boom`, which reaches the caller). -/
theorem c8_store_failure_policy_witness :
    ((createEntity (fun k => if k = 1 then some "boom" else none) "a" "t" []
        ⟨[], [], 0, 0⟩).1 =
      Except.error ("Failed to create entity: " ++ "boom")) ∧
    ((createEntity (fun k => if k = 1 then some "boom" else none) "a" "t" []
        ⟨[], [], 0, 0⟩).2.entities = []) :=
  c8_store_failure_policy.1 ⟨[], [], 0, 0⟩ "a" "t" []
    (fun k => if k = 1 then some "boom" else none) "boom" rfl rfl
    (by simp)

/-- C9, refuted at a concrete input: `createEntity` with the empty name is
not rejected — no validation exists on any layer of the call path.  From
the empty store, the call succeeds, persists an entity whose name is the
empty string, and issues two storage calls (the existence check and the
insert) rather than zero. -/
theorem c9_empty_name_not_rejected :
    ((createEntity allOk "" "t" [] ⟨[], [], 0, 0⟩).1 =
      Except.ok ⟨"", "t", [], 0, 0⟩) ∧
    ((createEntity allOk "" "t" [] ⟨[], [], 0, 0⟩).2.entities =
      [⟨"", "t", [], 0, 0⟩]) ∧
    ((createEntity allOk "" "t" [] ⟨[], [], 0, 0⟩).2.calls = 2) :=
  ⟨rfl, rfl, rfl⟩

/-- C9 as amended: the empty name is treated like any other name — the
existence check and the insert both reach the store (two collaborator
calls), and when no entity with the empty name exists the call succeeds
and persists the empty-named entity; no `ValidationError` path exists. -/
theorem c9_empty_name_no_validation (w : W) (ty : String)
    (obs : List String) (hfresh : ∀ r ∈ w.entities, r.name ≠ "") :
    ((createEntity allOk "" ty obs w).1 =
        Except.ok ⟨"", ty, obs, w.clock, w.clock⟩) ∧
    ((createEntity allOk "" ty obs w).2.entities =
        w.entities ++ [⟨"", ty, obs, w.clock, w.clock⟩]) ∧
    ((createEntity allOk "" ty obs w).2.calls = w.calls + 2) := by
  have h := createEntity_fresh w "" ty obs hfresh
  exact ⟨by rw [h], by rw [h], by rw [h]⟩

/-- C9 witness. -/
theorem c9_empty_name_no_validation_witness :
    ((createEntity allOk "" "t" ["o"] ⟨[], [], 5, 7⟩).1 =
        Except.ok ⟨"", "t", ["o"], 5, 5⟩) ∧
    ((createEntity allOk "" "t" ["o"] ⟨[], [], 5, 7⟩).2.entities =
        [] ++ [⟨"", "t", ["o"], 5, 5⟩]) ∧
    ((createEntity allOk "" "t" ["o"] ⟨[], [], 5, 7⟩).2.calls = 7 + 2) :=
  c9_empty_name_no_validation ⟨[], [], 5, 7⟩ "t" ["o"] (by simp)

/-- The entities table after `addObservation`, for any environment: either
untouched, or mapped by the name-guarded observation/timestamp update. -/
theorem addObservation_entities_shape (σ : Env) (w : W) (e : String)
    (contents : List String) :
    (addObservation σ e contents w).2.entities = w.entities ∨
    ∃ obs t, (addObservation σ e contents w).2.entities =
      w.entities.map (fun r => if r.name == e then
        { r with observations := obs, updated_at := t } else r) := by
  cases hσ0 : σ w.calls with
  | some m =>
    left
    simp [addObservation, queryEntitiesByName, hσ0]
  | none =>
    rcases hfil : w.entities.filter (fun r => r.name == e) with _ | ⟨a, rest⟩
    · left
      simp [addObservation, queryEntitiesByName, hσ0, hfil]
    · cases hσ1 : σ (w.calls + 1) with
      | some m =>
        left
        simp [addObservation, queryEntitiesByName, tick, updateEntityRow,
          hσ0, hσ1, hfil]
      | none =>
        right
        refine ⟨a.observations ++ contents, w.clock, ?_⟩
        simp [addObservation, queryEntitiesByName, tick, updateEntityRow,
          hσ0, hσ1, hfil]

/-- The relations table is never touched by `addObservation`. -/
theorem addObservation_relations (σ : Env) (w : W) (e : String)
    (contents : List String) :
    (addObservation σ e contents w).2.relations = w.relations := by
  cases hσ0 : σ w.calls with
  | some m => simp [addObservation, queryEntitiesByName, hσ0]
  | none =>
    rcases hfil : w.entities.filter (fun r => r.name == e) with _ | ⟨a, rest⟩
    · simp [addObservation, queryEntitiesByName, hσ0, hfil]
    · cases hσ1 : σ (w.calls + 1) with
      | some m =>
        simp [addObservation, queryEntitiesByName, tick, updateEntityRow,
          hσ0, hσ1, hfil]
      | none =>
        simp [addObservation, queryEntitiesByName, tick, updateEntityRow,
          hσ0, hσ1, hfil]

/-- The entities table after `deleteObservation`, for any environment:
either untouched, or mapped by the name-guarded update. -/
theorem deleteObservation_entities_shape (σ : Env) (w : W) (e : String)
    (toDel : List String) :
    (deleteObservation σ e toDel w).2.entities = w.entities ∨
    ∃ obs t, (deleteObservation σ e toDel w).2.entities =
      w.entities.map (fun r => if r.name == e then
        { r with observations := obs, updated_at := t } else r) := by
  cases hσ0 : σ w.calls with
  | some m =>
    left
    simp [deleteObservation, queryEntitiesByName, hσ0]
  | none =>
    rcases hfil : w.entities.filter (fun r => r.name == e) with _ | ⟨a, rest⟩
    · left
      simp [deleteObservation, queryEntitiesByName, hσ0, hfil]
    · cases hσ1 : σ (w.calls + 1) with
      | some m =>
        left
        simp [deleteObservation, queryEntitiesByName, tick, updateEntityRow,
          hσ0, hσ1, hfil]
      | none =>
        right
        refine ⟨a.observations.filter (fun o => !(toDel.contains o)),
          w.clock, ?_⟩
        simp [deleteObservation, queryEntitiesByName, tick, updateEntityRow,
          hσ0, hσ1, hfil]

/-- The relations table is never touched by `deleteObservation`. -/
theorem deleteObservation_relations (σ : Env) (w : W) (e : String)
    (toDel : List String) :
    (deleteObservation σ e toDel w).2.relations = w.relations := by
  cases hσ0 : σ w.calls with
  | some m => simp [deleteObservation, queryEntitiesByName, hσ0]
  | none =>
    rcases hfil : w.entities.filter (fun r => r.name == e) with _ | ⟨a, rest⟩
    · simp [deleteObservation, queryEntitiesByName, hσ0, hfil]
    · cases hσ1 : σ (w.calls + 1) with
      | some m =>
        simp [deleteObservation, queryEntitiesByName, tick, updateEntityRow,
          hσ0, hσ1, hfil]
      | none =>
        simp [deleteObservation, queryEntitiesByName, tick, updateEntityRow,
          hσ0, hσ1, hfil]

/-- C10: observation mutations are the only post-creation updates, and are
frame-bounded — for every environment, `addObservation` and
`deleteObservation` transform the entities table row-by-row through a map
that preserves every row's `name`, `entity_type` and `created_at`, leaves
every row not named `e` entirely unchanged (so only the named entity's
`observations` and `updated_at` can change), and leave the whole relations
table unchanged. -/
theorem c10_observation_mutation_frame (σ : Env) (w : W) (e : String)
    (contents toDel : List String) :
    (∃ g : EntityRow → EntityRow,
      (∀ r, (g r).name = r.name ∧ (g r).entity_type = r.entity_type ∧
            (g r).created_at = r.created_at) ∧
      (∀ r, r.name ≠ e → g r = r) ∧
      (addObservation σ e contents w).2.entities = w.entities.map g) ∧
    ((addObservation σ e contents w).2.relations = w.relations) ∧
    (∃ g : EntityRow → EntityRow,
      (∀ r, (g r).name = r.name ∧ (g r).entity_type = r.entity_type ∧
            (g r).created_at = r.created_at) ∧
      (∀ r, r.name ≠ e → g r = r) ∧
      (deleteObservation σ e toDel w).2.entities = w.entities.map g) ∧
    ((deleteObservation σ e toDel w).2.relations = w.relations) := by
  have hg : ∀ (obs : List String) (t : Nat) (r : EntityRow),
      ((if r.name == e then { r with observations := obs, updated_at := t }
        else r) : EntityRow).name = r.name ∧
      ((if r.name == e then { r with observations := obs, updated_at := t }
        else r) : EntityRow).entity_type = r.entity_type ∧
      ((if r.name == e then { r with observations := obs, updated_at := t }
        else r) : EntityRow).created_at = r.created_at := by
    intro obs t r
    by_cases h : (r.name == e) = true
    · simp [h]
    · simp [h]
  have hgid : ∀ (obs : List String) (t : Nat) (r : EntityRow), r.name ≠ e →
      ((if r.name == e then { r with observations := obs, updated_at := t }
        else r) : EntityRow) = r := by
    intro obs t r h
    simp [h]
  refine ⟨?_, addObservation_relations σ w e contents, ?_,
    deleteObservation_relations σ w e toDel⟩
  · rcases addObservation_entities_shape σ w e contents with h | ⟨obs, t, h⟩
    · exact ⟨id, fun r => ⟨rfl, rfl, rfl⟩, fun r _ => rfl,
        by rw [h, List.map_id]⟩
    · exact ⟨_, fun r => hg obs t r, fun r hr => hgid obs t r hr, h⟩
  · rcases deleteObservation_entities_shape σ w e toDel with h | ⟨obs, t, h⟩
    · exact ⟨id, fun r => ⟨rfl, rfl, rfl⟩, fun r _ => rfl,
        by rw [h, List.map_id]⟩
    · exact ⟨_, fun r => hg obs t r, fun r hr => hgid obs t r hr, h⟩

end MemoryModel
